import Mathlib

/-!
Verification of the email decision pipeline of the Parts-Dept repository:
a shallow embedding of `backend/llm/router.py` and `backend/email/processor.py`
together with theorems checking the natural-language specification against it.

Modelling conventions:
* Python floats are modelled as exact rationals; every numeric literal that
  occurs in the claims (0.75, 0.5, 0.3, ...) is exactly representable.
* A fallible external call is modelled as an `Except String` value: `.ok v` is
  a normal return, `.error e` is a raised exception whose `str()` is `e`.
* Each provider call in `router.py` carries a tenacity retry decorator; the
  embedding works at the granularity of one provider call with its full retry
  budget, which is the granularity the specification speaks at.
* Prompt text construction does not influence any control flow decision in the
  source, so prompt strings are not reproduced.
-/

/-- Decidable equality of call outcomes, used to evaluate the embedding on
concrete inputs. -/
instance {ε α : Type} [DecidableEq ε] [DecidableEq α] : DecidableEq (Except ε α) := fun x y =>
  match x, y with
  | .ok a, .ok b =>
    if h : a = b then .isTrue (congrArg Except.ok h)
    else .isFalse (fun hh => h (Except.ok.inj hh))
  | .error a, .error b =>
    if h : a = b then .isTrue (congrArg Except.error h)
    else .isFalse (fun hh => h (Except.error.inj hh))
  | .ok _, .error _ => .isFalse (fun hh => Except.noConfusion hh)
  | .error _, .ok _ => .isFalse (fun hh => Except.noConfusion hh)

/-- Embeds the enum `ModelTier` of router.py lines 11-14. -/
inductive ModelTier where
  | fast
  | balanced
  | quality
  deriving DecidableEq, Repr

/-- Embeds `.value` of the Python string enum: `ModelTier.FAST.value = "fast"` etc. -/
def ModelTier.value : ModelTier → String
  | .fast => "fast"
  | .balanced => "balanced"
  | .quality => "quality"

/-- Result dictionary returned by `LLMRouter.generate` (router.py lines 158-162
and 170-174): fields `response`, `model_used`, `tier`. -/
structure GenResult where
  response : String
  model_used : String
  tier : String
  deriving DecidableEq, Repr

/-- Outcomes of the three provider calls available to one `generate` invocation.
`llama n` is the outcome of the (n+1)-st invocation of `call_llama` within this
`generate` call (the same provider can be invoked twice: once as the BALANCED
tier fallback and once as the last-resort fallback); `mistral` and `claude` are
invoked at most once.  Each outcome already accounts for the full internal
tenacity retry budget of the decorated call.  The `RuntimeError` raised when a
provider is not configured (router.py lines 75-76 and 100-101) is covered by
the `.error` case exactly like any other failure, because the bare `except`
clauses of `generate` do not distinguish them. -/
structure ProviderEnv where
  llama : Nat → Except String String
  mistral : Except String String
  claude : Except String String

namespace LLMRouter

/-- Whitespace characters recognised by the Python `str.split()` used for the
word count (space, tab, newline, carriage return, vertical tab, form feed). -/
def is_py_space (c : Char) : Bool :=
  c = ' ' || c = '\t' || c = '\n' || c = '\r' || c = '\x0b' || c = '\x0c'

/-- Embeds Python `s.split()`: maximal runs of non-whitespace characters. -/
def split_words : List Char → List Char → List String
  | [], acc => if acc.isEmpty then [] else [String.mk acc.reverse]
  | c :: cs, acc =>
    if is_py_space c then
      if acc.isEmpty then split_words cs [] else String.mk acc.reverse :: split_words cs []
    else
      split_words cs (c :: acc)

/-- Word list of a query, as computed by `query.split()` in router.py line 24. -/
def py_words (s : String) : List String :=
  split_words s.toList []

/-- Embeds Python `str.lower()`: ASCII lowercasing, character by character.
Python also lowercases characters beyond ASCII, but every keyword in the fixed
list of router.py is ASCII, so the keyword test is unaffected. -/
def py_lower (s : String) : String :=
  String.mk (s.toList.map Char.toLower)

/-- Substring test on character lists, embedding the Python `in` operator on
strings. -/
def contains_sub (hay needle : List Char) : Bool :=
  match hay with
  | [] => needle.isEmpty
  | _ :: t => needle.isPrefixOf hay || contains_sub t needle

/-- Embeds `needle in hay` for Python strings. -/
def str_contains_sub (hay needle : String) : Bool :=
  contains_sub hay.toList needle.toList

/-- The fixed analytical keyword list of router.py lines 29-32. -/
def complex_keywords : List String :=
  ["analyze", "compare", "explain", "evaluate", "complex",
   "detailed", "comprehensive", "multiple", "various"]

/-- Embeds the keyword test of router.py line 34:
`any(keyword in query.lower() for keyword in complex_keywords)`. -/
def has_complex_keyword (query : String) : Bool :=
  complex_keywords.any (fun kw => str_contains_sub (py_lower query) kw)

/-- Embeds `LLMRouter.classify_query_complexity` (router.py lines 23-40), the
Tier Selector.  `context_length` is a Python int, modelled as an integer. -/
def classify_query_complexity (query : String) (context_length : ℤ) : ModelTier :=
  let query_length : ℤ := (py_words query).length
  if query_length < 20 ∧ context_length < 500 then
    .fast
  else if has_complex_keyword query then
    .quality
  else if context_length > 2000 ∨ query_length > 50 then
    .balanced
  else
    .fast

/-- Embeds the body of the outer `try` of `LLMRouter.generate` (router.py lines
142-162): the tier-to-provider dispatch including the inner BALANCED-tier
fallback to Llama (lines 149-156).  Returns the outcome together with the
sequence of provider calls attempted, in order. -/
def generate_attempt (env : ProviderEnv) (tier : ModelTier) :
    Except String GenResult × List String :=
  match tier with
  | .fast =>
    match env.llama 0 with
    | .ok r => (.ok ⟨r, "llama3", "fast"⟩, ["llama"])
    | .error e => (.error e, ["llama"])
  | .quality =>
    match env.claude with
    | .ok r => (.ok ⟨r, "claude", "quality"⟩, ["claude"])
    | .error e => (.error e, ["claude"])
  | .balanced =>
    match env.mistral with
    | .ok r => (.ok ⟨r, "mistral", "balanced"⟩, ["mistral"])
    | .error _ =>
      match env.llama 0 with
      | .ok r => (.ok ⟨r, "llama3", "balanced"⟩, ["mistral", "llama"])
      | .error e => (.error e, ["mistral", "llama"])

/-- Embeds `LLMRouter.generate` (router.py lines 135-177): tier defaulting via
the Tier Selector, the tier dispatch with its inner fallback, and the outer
last-resort fallback to Llama (lines 164-177).  Returns the outcome together
with the ordered list of provider calls attempted. -/
def generate (env : ProviderEnv) (prompt : String) (tierArg : Option ModelTier) :
    Except String GenResult × List String :=
  let tier := tierArg.getD (classify_query_complexity prompt 0)
  match generate_attempt env tier with
  | (.ok r, evs) => (.ok r, evs)
  | (.error _, evs) =>
    match env.llama (evs.count "llama") with
    | .ok r => (.ok ⟨r, "llama3_fallback", "fallback"⟩, evs ++ ["llama"])
    | .error e => (.error e, evs ++ ["llama"])

end LLMRouter

/-- Sample provider environment: Mistral fails, Llama succeeds. -/
def envMistralDown : ProviderEnv :=
  ⟨fun _ => .ok "llama says hi", .error "Mistral API key not configured", .ok "claude says hi"⟩

/-- Sample provider environment: only Llama is up. -/
def envOnlyLlama : ProviderEnv :=
  ⟨fun _ => .ok "llama rescue", .error "mistral down", .error "claude down"⟩

/-- Sample provider environment: every provider is down. -/
def envAllDown : ProviderEnv :=
  ⟨fun _ => .error "connection refused", .error "mistral down", .error "claude down"⟩

/-- C7: the Tier Selector is the total function `classify_query_complexity`;
identical inputs trivially yield identical tiers, and on every input it decides
by the four ordered rules: short query with short context gives FAST;
otherwise an analytical keyword gives QUALITY; otherwise long context or long
query gives BALANCED; otherwise FAST. -/
theorem C7_tier_selector_rules (q : String) (c : ℤ) :
    (((LLMRouter.py_words q).length : ℤ) < 20 ∧ c < 500 →
        LLMRouter.classify_query_complexity q c = .fast)
  ∧ (¬(((LLMRouter.py_words q).length : ℤ) < 20 ∧ c < 500) →
      LLMRouter.has_complex_keyword q = true →
        LLMRouter.classify_query_complexity q c = .quality)
  ∧ (¬(((LLMRouter.py_words q).length : ℤ) < 20 ∧ c < 500) →
      LLMRouter.has_complex_keyword q = false →
      (c > 2000 ∨ ((LLMRouter.py_words q).length : ℤ) > 50) →
        LLMRouter.classify_query_complexity q c = .balanced)
  ∧ (¬(((LLMRouter.py_words q).length : ℤ) < 20 ∧ c < 500) →
      LLMRouter.has_complex_keyword q = false →
      ¬(c > 2000 ∨ ((LLMRouter.py_words q).length : ℤ) > 50) →
        LLMRouter.classify_query_complexity q c = .fast) := by
  refine ⟨fun h1 => ?_, fun h1 h2 => ?_, fun h1 h2 h3 => ?_, fun h1 h2 h3 => ?_⟩ <;>
    simp only [LLMRouter.classify_query_complexity]
  · rw [if_pos h1]
  · rw [if_neg h1, if_pos h2]
  · rw [if_neg h1, if_neg (by simp [h2]), if_pos h3]
  · rw [if_neg h1, if_neg (by simp [h2]), if_neg h3]

/-- Concrete instances of each of the four rules of C7. -/
theorem C7_tier_selector_rules_witness :
    LLMRouter.classify_query_complexity "hi" 0 = .fast
  ∧ LLMRouter.classify_query_complexity "analyze this" 500 = .quality
  ∧ LLMRouter.classify_query_complexity "hello there" 2500 = .balanced
  ∧ LLMRouter.classify_query_complexity "hello there" 1000 = .fast :=
  ⟨(C7_tier_selector_rules "hi" 0).1 (by decide),
   (C7_tier_selector_rules "analyze this" 500).2.1 (by decide) (by decide),
   (C7_tier_selector_rules "hello there" 2500).2.2.1 (by decide) (by decide) (by decide),
   (C7_tier_selector_rules "hello there" 1000).2.2.2 (by decide) (by decide) (by decide)⟩

/-- C8 counterexample: the query "analyze this" contains the keyword "analyze",
has fewer than 20 words, and with context length 0 the Tier Selector returns
FAST, not QUALITY: the short-query rule fires before the keyword rule. -/
theorem C8_short_analyze_counterexample :
    LLMRouter.str_contains_sub (LLMRouter.py_lower "analyze this") "analyze" = true
  ∧ ((LLMRouter.py_words "analyze this").length : ℤ) < 20
  ∧ (0 : ℤ) < 500
  ∧ LLMRouter.classify_query_complexity "analyze this" 0 = .fast
  ∧ ModelTier.fast ≠ ModelTier.quality := by
  decide

/-- C8 amended: for every query containing "analyze", the Tier Selector returns
QUALITY provided the short-query rule does not fire first, i.e. provided the
query has at least 20 words or the context length is at least 500. -/
theorem C8_analyze_gives_quality (q : String) (c : ℤ)
    (hkw : LLMRouter.str_contains_sub (LLMRouter.py_lower q) "analyze" = true)
    (hlong : ¬(((LLMRouter.py_words q).length : ℤ) < 20 ∧ c < 500)) :
    LLMRouter.classify_query_complexity q c = .quality := by
  have hany : LLMRouter.has_complex_keyword q = true := by
    simp [LLMRouter.has_complex_keyword, LLMRouter.complex_keywords, hkw]
  simp only [LLMRouter.classify_query_complexity]
  rw [if_neg hlong, if_pos hany]

/-- Concrete instance of the amended C8. -/
theorem C8_analyze_gives_quality_witness :
    LLMRouter.classify_query_complexity "analyze this" 500 = .quality :=
  C8_analyze_gives_quality "analyze this" 500 (by decide) (by decide)

/-- C5: at BALANCED tier, when the Mistral call fails for any reason (including
being unconfigured) and the Llama call succeeds, `generate` returns the Llama
result with `model_used = "llama3"`; the call trace `["mistral", "llama"]`
shows exactly one synchronous fallback call. -/
theorem C5_balanced_fallback (env : ProviderEnv) (prompt e s : String)
    (hm : env.mistral = .error e) (hl : env.llama 0 = .ok s) :
    LLMRouter.generate env prompt (some .balanced)
      = (.ok ⟨s, "llama3", "balanced"⟩, ["mistral", "llama"]) := by
  simp [LLMRouter.generate, LLMRouter.generate_attempt, hm, hl]

/-- Concrete instance of C5: unconfigured Mistral falls back to Llama. -/
theorem C5_balanced_fallback_witness :
    LLMRouter.generate envMistralDown "p" (some .balanced)
      = (.ok ⟨"llama says hi", "llama3", "balanced"⟩, ["mistral", "llama"]) :=
  C5_balanced_fallback envMistralDown "p" "Mistral API key not configured" "llama says hi" rfl rfl

/-- C6: when the chosen tier dispatch (retry budget and configured fallback
included) fails, `generate` makes exactly one further last-resort Llama call:
if it succeeds the result carries the markers `model_used = "llama3_fallback"`
and `tier = "fallback"`, distinct from every primary `model_used` and from
every tier value; only if it also fails does `generate` surface the error. -/
theorem C6_last_resort_fallback (env : ProviderEnv) (prompt : String)
    (tier : ModelTier) (e : String)
    (hfail : (LLMRouter.generate_attempt env tier).1 = .error e) :
    (∀ s, env.llama ((LLMRouter.generate_attempt env tier).2.count "llama") = .ok s →
        LLMRouter.generate env prompt (some tier)
          = (.ok ⟨s, "llama3_fallback", "fallback"⟩,
             (LLMRouter.generate_attempt env tier).2 ++ ["llama"])
      ∧ ("llama3_fallback" ∉ ["llama3", "mistral", "claude"]
          ∧ ∀ t : ModelTier, "fallback" ≠ t.value))
  ∧ (∀ e2, env.llama ((LLMRouter.generate_attempt env tier).2.count "llama") = .error e2 →
        LLMRouter.generate env prompt (some tier)
          = (.error e2, (LLMRouter.generate_attempt env tier).2 ++ ["llama"])) := by
  constructor
  · intro s hs
    refine ⟨?_, by decide, fun t => by cases t <;> decide⟩
    simp only [LLMRouter.generate, Option.getD]
    rcases hatt : LLMRouter.generate_attempt env tier with ⟨res, evs⟩
    rw [hatt] at hfail hs
    simp only at hfail
    subst hfail
    simp [hatt, hs]
  · intro e2 he2
    simp only [LLMRouter.generate, Option.getD]
    rcases hatt : LLMRouter.generate_attempt env tier with ⟨res, evs⟩
    rw [hatt] at hfail he2
    simp only at hfail
    subst hfail
    simp [hatt, he2]

/-- Concrete instances of both halves of C6: with Claude down at QUALITY tier,
a working Llama rescues the call with the fallback markers, and with every
provider down the error surfaces. -/
theorem C6_last_resort_fallback_witness :
    (LLMRouter.generate envOnlyLlama "p" (some .quality)
      = (.ok ⟨"llama rescue", "llama3_fallback", "fallback"⟩, ["claude", "llama"]))
  ∧ (LLMRouter.generate envAllDown "p" (some .quality)
      = (.error "connection refused", ["claude", "llama"])) :=
  ⟨((C6_last_resort_fallback envOnlyLlama "p" .quality "claude down" rfl).1
      "llama rescue" rfl).1,
   (C6_last_resort_fallback envAllDown "p" .quality "claude down" rfl).2
      "connection refused" rfl⟩

/-!
A model of the Python `json.loads` used by the processor, restricted to the
standard JSON grammar (strings with the usual escapes, numbers, booleans,
null, arrays, objects).  Numbers are parsed into exact fractions.  Divergences
from CPython kept deliberately small and irrelevant to the claims: leading
zeros in numbers are accepted, the NaN/Infinity extensions and surrogate-pair
escapes are rejected, and parsing runs on a fuel bound ample for every input
considered here.
-/

/-- A Python float, modelled as an exact unreduced fraction (every numeric
value occurring in the claims is exactly representable, and none of the
comparisons the code performs is close enough to a tie for binary64 rounding
to matter).  Denominators are positive for every value the embedding
constructs. -/
structure PyFloat where
  num : ℤ
  den : ℕ
  deriving DecidableEq, Repr

/-- Comparison of two fractions by cross multiplication. -/
def PyFloat.lt (a b : PyFloat) : Prop :=
  a.num * (b.den : ℤ) < b.num * (a.den : ℤ)

/-- Non-strict comparison of two fractions by cross multiplication. -/
def PyFloat.le (a b : PyFloat) : Prop :=
  a.num * (b.den : ℤ) ≤ b.num * (a.den : ℤ)

instance (a b : PyFloat) : Decidable (PyFloat.lt a b) :=
  inferInstanceAs (Decidable (_ < _))

instance (a b : PyFloat) : Decidable (PyFloat.le a b) :=
  inferInstanceAs (Decidable (_ ≤ _))

/-- The rational value of a fraction. -/
def PyFloat.toRat (a : PyFloat) : ℚ :=
  (a.num : ℚ) / (a.den : ℚ)

/-- A parsed JSON value.  Python dicts keep the last binding for a duplicated
key; `lookup` below searches accordingly. -/
inductive JsonVal where
  | null
  | bool (b : Bool)
  | num (f : PyFloat)
  | str (s : String)
  | arr (elems : List JsonVal)
  | obj (fields : List (String × JsonVal))
  deriving Repr

namespace PyJson

/-- Skips the JSON whitespace characters. -/
def skip_ws : List Char → List Char
  | [] => []
  | c :: cs => if c = ' ' || c = '\t' || c = '\n' || c = '\r' then skip_ws cs else c :: cs

/-- Value of a hexadecimal digit. -/
def hex_val (c : Char) : Option Nat :=
  if '0' ≤ c ∧ c ≤ '9' then some (c.toNat - 48)
  else if 'a' ≤ c ∧ c ≤ 'f' then some (c.toNat - 87)
  else if 'A' ≤ c ∧ c ≤ 'F' then some (c.toNat - 55)
  else none

/-- Parses the body of a JSON string after the opening quote, returning the
decoded string and the remaining input. -/
def parse_string_body : Nat → List Char → List Char → Option (String × List Char)
  | 0, _, _ => none
  | _ + 1, _, [] => none
  | fuel + 1, acc, c :: rest =>
    if c = '\"' then some (String.mk acc.reverse, rest)
    else if c = '\\' then
      match rest with
      | [] => none
      | e :: rest2 =>
        if e = '\"' then parse_string_body fuel ('\"' :: acc) rest2
        else if e = '\\' then parse_string_body fuel ('\\' :: acc) rest2
        else if e = '/' then parse_string_body fuel ('/' :: acc) rest2
        else if e = 'n' then parse_string_body fuel ('\n' :: acc) rest2
        else if e = 't' then parse_string_body fuel ('\t' :: acc) rest2
        else if e = 'r' then parse_string_body fuel ('\r' :: acc) rest2
        else if e = 'b' then parse_string_body fuel ('\x08' :: acc) rest2
        else if e = 'f' then parse_string_body fuel ('\x0c' :: acc) rest2
        else if e = 'u' then
          match rest2 with
          | a :: b :: c2 :: d :: rest3 =>
            match hex_val a, hex_val b, hex_val c2, hex_val d with
            | some x1, some x2, some x3, some x4 =>
              let n := ((x1 * 16 + x2) * 16 + x3) * 16 + x4
              if n < 55296 then parse_string_body fuel (Char.ofNat n :: acc) rest3
              else none
            | _, _, _, _ => none
          | _ => none
        else none
    else parse_string_body fuel (c :: acc) rest

/-- Splits off the leading run of decimal digits. -/
def take_digits : List Char → List Char × List Char
  | [] => ([], [])
  | c :: cs =>
    if c.isDigit then
      let (ds, r) := take_digits cs
      (c :: ds, r)
    else ([], c :: cs)

/-- Numeric value of a digit run. -/
def digits_to_nat (ds : List Char) : Nat :=
  ds.foldl (fun acc c => acc * 10 + (c.toNat - 48)) 0

/-- Parses an optional fractional part, returning its digit run. -/
def parse_frac (cs : List Char) : Option (List Char × List Char) :=
  match cs with
  | '.' :: r =>
    let (fp, r2) := take_digits r
    if fp.isEmpty then none else some (fp, r2)
  | _ => some ([], cs)

/-- Parses an optional exponent part. -/
def parse_exp (cs : List Char) : Option (ℤ × List Char) :=
  match cs with
  | [] => some (0, [])
  | c :: r =>
    if c = 'e' ∨ c = 'E' then
      let (sgn, r2) : ℤ × List Char :=
        match r with
        | '+' :: r3 => (1, r3)
        | '-' :: r3 => (-1, r3)
        | _ => (1, r)
      let (ds, r4) := take_digits r2
      if ds.isEmpty then none else some (sgn * (digits_to_nat ds : ℤ), r4)
    else some (0, c :: r)

/-- Assembles sign, integer digits, fraction digits and exponent into an exact
fraction: the mantissa over a power of ten, scaled by the exponent. -/
def make_float (neg : Bool) (ip : ℕ) (fp : List Char) (ex : ℤ) : PyFloat :=
  let fracDen : ℕ := 10 ^ fp.length
  let mant : ℤ := (ip : ℤ) * (fracDen : ℤ) + (digits_to_nat fp : ℤ)
  let smant : ℤ := if neg then -mant else mant
  match ex with
  | .ofNat n => ⟨smant * ((10 ^ n : ℕ) : ℤ), fracDen⟩
  | .negSucc n => ⟨smant, fracDen * 10 ^ (n + 1)⟩

/-- Parses a JSON number into an exact fraction. -/
def parse_number (cs : List Char) : Option (PyFloat × List Char) :=
  let (neg, cs1) : Bool × List Char :=
    match cs with
    | '-' :: r => (true, r)
    | _ => (false, cs)
  let (ip, cs2) := take_digits cs1
  if ip.isEmpty then none
  else
    match parse_frac cs2 with
    | none => none
    | some (fp, cs3) =>
      match parse_exp cs3 with
      | none => none
      | some (ex, cs4) => some (make_float neg (digits_to_nat ip) fp ex, cs4)

mutual

/-- Parses one JSON value. -/
def parse_value : Nat → List Char → Option (JsonVal × List Char)
  | 0, _ => none
  | fuel + 1, cs =>
    match skip_ws cs with
    | [] => none
    | c :: rest =>
      if c = '\"' then
        match parse_string_body (rest.length + 1) [] rest with
        | some (s, r) => some (.str s, r)
        | none => none
      else if c = '[' then parse_array fuel (skip_ws rest)
      else if c = '\x7b' then parse_object fuel (skip_ws rest)
      else if c = 'n' then
        match rest with
        | 'u' :: 'l' :: 'l' :: r => some (.null, r)
        | _ => none
      else if c = 't' then
        match rest with
        | 'r' :: 'u' :: 'e' :: r => some (.bool true, r)
        | _ => none
      else if c = 'f' then
        match rest with
        | 'a' :: 'l' :: 's' :: 'e' :: r => some (.bool false, r)
        | _ => none
      else
        match parse_number (c :: rest) with
        | some (q, r) => some (.num q, r)
        | none => none

/-- Parses the inside of an array, after the opening bracket. -/
def parse_array : Nat → List Char → Option (JsonVal × List Char)
  | 0, _ => none
  | fuel + 1, cs =>
    match cs with
    | ']' :: r => some (.arr [], r)
    | _ =>
      match parse_elems fuel cs with
      | some (xs, r) => some (.arr xs, r)
      | none => none

/-- Parses a nonempty comma-separated element list and the closing bracket. -/
def parse_elems : Nat → List Char → Option (List JsonVal × List Char)
  | 0, _ => none
  | fuel + 1, cs =>
    match parse_value fuel cs with
    | none => none
    | some (v, r) =>
      match skip_ws r with
      | ',' :: r2 =>
        match parse_elems fuel r2 with
        | some (xs, r3) => some (v :: xs, r3)
        | none => none
      | ']' :: r2 => some ([v], r2)
      | _ => none

/-- Parses the inside of an object, after the opening brace. -/
def parse_object : Nat → List Char → Option (JsonVal × List Char)
  | 0, _ => none
  | fuel + 1, cs =>
    match cs with
    | '\x7d' :: r => some (.obj [], r)
    | _ =>
      match parse_members fuel cs with
      | some (fs, r) => some (.obj fs, r)
      | none => none

/-- Parses a nonempty member list and the closing brace. -/
def parse_members : Nat → List Char → Option (List (String × JsonVal) × List Char)
  | 0, _ => none
  | fuel + 1, cs =>
    match skip_ws cs with
    | '\"' :: rest =>
      match parse_string_body (rest.length + 1) [] rest with
      | none => none
      | some (k, r) =>
        match skip_ws r with
        | ':' :: r2 =>
          match parse_value fuel r2 with
          | none => none
          | some (v, r3) =>
            match skip_ws r3 with
            | ',' :: r4 =>
              match parse_members fuel r4 with
              | some (fs, r5) => some ((k, v) :: fs, r5)
              | none => none
            | '\x7d' :: r4 => some ([(k, v)], r4)
            | _ => none
        | _ => none
    | _ => none

end

end PyJson

/-- Models `json.loads`: parse one value and require only whitespace after it;
`none` models a raised `JSONDecodeError`. -/
def json_loads (s : String) : Option JsonVal :=
  let cs := s.toList
  match PyJson.parse_value (10 * (cs.length + 1)) cs with
  | none => none
  | some (v, rest) => if PyJson.skip_ws rest = [] then some v else none

/-- Looks a key up in a field list, later bindings shadowing earlier ones, the
way Python dict construction behaves for duplicate keys. -/
def assoc_last : List (String × JsonVal) → String → Option JsonVal
  | [], _ => none
  | (k, v) :: rest, key =>
    match assoc_last rest key with
    | some r => some r
    | none => if k = key then some v else none

/-- Models the Python subscript `j[key]` returning `none` where Python would
raise (missing key, or a non-dict value). -/
def JsonVal.lookup : JsonVal → String → Option JsonVal
  | .obj fs, key => assoc_last fs key
  | _, _ => none

/-!
Embedding of `backend/email/processor.py`.  The collaborator calls of the
processor (the Provider Router, inventory lookups, retrieval context) are
supplied as an environment of call outcomes; the trace of collaborator calls
actually made is returned alongside each result.
-/

/-- One inventory row as consumed by the response composer (the fields read at
processor.py line 192). -/
structure InvItem where
  part_name : String
  sku : String
  location : String
  quantity : ℤ
  price : PyFloat
  deriving DecidableEq, Repr

/-- The two result shapes of `generate_response` (processor.py lines 143-148,
211-218 and 222-227): a tagged union of the deferred-to-human dictionary
(`requires_human=True`, `draft_response=None`) and the generated-response
dictionary (`requires_human=False`). -/
inductive Decision where
  | deferred (reason : String) (suggested_department : String)
  | generated (response : String) (department : String)
      (inventory_data : List InvItem) (confidence : PyFloat) (model_used : String)
  deriving DecidableEq, Repr

/-- A collaborator call made by the processor, for observing which external
services a run touched. -/
inductive CallEvent where
  | inventory (sku : String)
  | retrieval (query : String) (context_type : String)
  | generation (tier : ModelTier)
  deriving DecidableEq, Repr

/-- Collaborator call outcomes available to one `generate_response` run,
together with the configured confidence threshold (config.py line 65 gives the
default 0.75).  `router_generate` is the outcome of the single
`llm_router.generate` call of the generation stage: the `response` string and
`model_used` of the returned dictionary on success. -/
structure ProcEnv where
  confidence_threshold : PyFloat
  check_inventory : String → Except String (List InvItem)
  build_rag_context : String → String → Except String String
  router_generate : ModelTier → Except String GenResult

/-- The default confidence threshold of config.py line 65, the float 0.75. -/
def default_confidence_threshold : PyFloat := ⟨75, 100⟩

/-- The email dictionary as read by the processor: `subject`, `body`, `from`
default to the empty string via `.get` (processor.py lines 135-137, 231-232)
and `id` to `None` (line 247). -/
structure EmailData where
  id : Option String
  subject : String
  body : String
  from_addr : String

namespace EmailProcessor

/-- The seven declared intents of the `EmailIntent` class (processor.py lines
12-19). -/
def valid_intents : List String :=
  ["parts_order", "service_inquiry", "invoice_request", "inventory_check",
   "general_inquiry", "complaint", "transfer_request"]

/-- Embeds `EmailProcessor.route_to_department` (processor.py lines 117-129):
the static dictionary lookup with default "customer_service".  The `entities`
parameter of the source is not read by the body and is dropped here. -/
def route_to_department (intent : String) : String :=
  if intent = "parts_order" then "sales"
  else if intent = "service_inquiry" then "service"
  else if intent = "invoice_request" then "accounting"
  else if intent = "inventory_check" then "sales"
  else if intent = "complaint" then "customer_service"
  else if intent = "transfer_request" then "warehouse"
  else if intent = "general_inquiry" then "customer_service"
  else "customer_service"

/-- The default classification dictionary of processor.py lines 58-63 and
70-75, parametrised by the confidence the two sites differ in. -/
def default_classification (confidence : PyFloat) : JsonVal :=
  .obj [("intent", .str "general_inquiry"), ("confidence", .num confidence),
        ("key_entities", .arr []), ("urgency", .str "medium")]

/-- Embeds Python `str.strip()` (processor.py lines 52 and 103): removes
leading and trailing whitespace.  Stripping never changes the brace search
below, and is kept for fidelity only. -/
def py_strip (s : String) : String :=
  String.mk (((s.toList.dropWhile LLMRouter.is_py_space).reverse.dropWhile
      LLMRouter.is_py_space).reverse)

/-- Embeds `re.search` of the pattern matching a brace-delimited region with
`re.DOTALL` (processor.py line 54): the leftmost match runs from the first
opening brace to the last closing brace of the whole text, provided the
closing brace comes later; otherwise there is no match. -/
def find_json_region (s : String) : Option String :=
  let cs := s.toList
  match cs.findIdx? (fun c => c = '\x7b'), cs.reverse.findIdx? (fun c => c = '\x7d') with
  | some i, some rj =>
    let j := cs.length - 1 - rj
    if i < j then some (String.mk ((cs.take (j + 1)).drop i)) else none
  | _, _ => none

/-- Embeds `EmailProcessor.classify_intent` (processor.py lines 24-75) as a
function of the outcome of its single FAST-tier router call.  On call failure
the handler of lines 68-75 returns the 0.3 default.  On success the stripped
response is searched for a brace region; no region gives the 0.5 default of
lines 58-63.  A region is fed to `json.loads`; a parse failure raises and
lands in the same handler, giving the 0.3 default.  A parsed value reaches the
log statement of line 65, which subscripts `intent` and `confidence` and hence
raises into the handler when either is missing; otherwise the parsed value is
returned as is. -/
def classify_intent (call : Except String String) : JsonVal :=
  match call with
  | .error _ => default_classification ⟨3, 10⟩
  | .ok text =>
    match find_json_region (py_strip text) with
    | none => default_classification ⟨5, 10⟩
    | some region =>
      match json_loads region with
      | none => default_classification ⟨3, 10⟩
      | some j =>
        if (j.lookup "intent").isSome ∧ (j.lookup "confidence").isSome then j
        else default_classification ⟨3, 10⟩

/-- Embeds `EmailProcessor.extract_entities` (processor.py lines 77-115) as a
function of the outcome of its single FAST-tier router call: the parsed brace
region on success, and the empty dictionary when the call fails, no region is
found, or the parse raises. -/
def extract_entities (call : Except String String) : JsonVal :=
  match call with
  | .error _ => .obj []
  | .ok text =>
    match find_json_region (py_strip text) with
    | none => .obj []
    | some region =>
      match json_loads region with
      | none => .obj []
      | some j => j

end EmailProcessor

namespace EmailProcessor

/-- The two classification fields `generate_response` reads (processor.py lines
139-140): the intent string and the numeric confidence.  Classifications whose
`intent` value is not a string or whose `confidence` is not a number would
raise on first numeric use; `classification_view` below maps them to that
error. -/
structure ClassificationView where
  intent : String
  confidence : PyFloat
  deriving DecidableEq, Repr

/-- The one entities field `generate_response` reads:
`entities.get(\x27part_skus\x27, [])` at processor.py line 154, a SKU list
defaulting to empty when absent. -/
structure EntitiesView where
  part_skus : List String
  deriving DecidableEq, Repr

/-- Embeds the inventory loop of processor.py lines 157-160: one
`check_inventory` call per SKU (the caller truncates to 5), extending the
accumulated rows; an exception from a lookup propagates, abandoning the rest
of the loop.  Returns the outcome and the calls made. -/
def run_inventory (env : ProcEnv) : List String → Except String (List InvItem) × List CallEvent
  | [] => (.ok [], [])
  | sku :: rest =>
    match env.check_inventory sku with
    | .error e => (.error e, [.inventory sku])
    | .ok inv =>
      match run_inventory env rest with
      | (.ok acc, evs) => (.ok (inv ++ acc), .inventory sku :: evs)
      | (.error e, evs) => (.error e, .inventory sku :: evs)

/-- Embeds the enrichment stage of processor.py lines 150-173, which is NOT
inside any `try` block: for parts_order or inventory_check with extracted
SKUs, inventory lookups over the first five SKUs followed by a parts-context
retrieval; for service_inquiry, an FAQ-context retrieval over the first 200
characters of the body; otherwise nothing.  Any exception propagates.  Returns
the gathered inventory rows and context text, plus the calls made. -/
def enrich (env : ProcEnv) (body intent : String) (part_skus : List String) :
    Except String (List InvItem × String) × List CallEvent :=
  if intent = "parts_order" ∨ intent = "inventory_check" then
    if part_skus.isEmpty then (.ok ([], ""), [])
    else
      match run_inventory env (part_skus.take 5) with
      | (.error e, evs) => (.error e, evs)
      | (.ok inv, evs) =>
        let q := "parts " ++ String.intercalate " " part_skus
        match env.build_rag_context q "parts" with
        | .ok ctx => (.ok (inv, ctx), evs ++ [.retrieval q "parts"])
        | .error e => (.error e, evs ++ [.retrieval q "parts"])
  else if intent = "service_inquiry" then
    let q := body.take 200
    match env.build_rag_context q "faq" with
    | .ok ctx => (.ok ([], ctx), [.retrieval q "faq"])
    | .error e => (.error e, [.retrieval q "faq"])
  else (.ok ([], ""), [])

/-- Embeds `EmailProcessor.generate_response` (processor.py lines 131-227).
The confidence gate of lines 142-148 returns the deferred dictionary with the
exact reason string "Low confidence classification" of line 145 without
touching any collaborator.  Past the gate, enrichment runs unprotected; then
the single generation call of lines 202-207 at QUALITY tier for complaints and
BALANCED otherwise is wrapped in `try`: success packages the generated
dictionary of lines 211-218, an exception becomes the deferred dictionary of
lines 222-227 with reason "Generation error: " followed by the cause. -/
def generate_response (env : ProcEnv) (email : EmailData) (c : ClassificationView)
    (entities : EntitiesView) : Except String Decision × List CallEvent :=
  if PyFloat.lt c.confidence env.confidence_threshold then
    (.ok (.deferred "Low confidence classification" (route_to_department c.intent)), [])
  else
    match enrich env email.body c.intent entities.part_skus with
    | (.error e, evs) => (.error e, evs)
    | (.ok (inv, _ctx), evs) =>
      let tier := if c.intent = "complaint" then ModelTier.quality else ModelTier.balanced
      match env.router_generate tier with
      | .ok r =>
        (.ok (.generated r.response (route_to_department c.intent) inv c.confidence r.model_used),
         evs ++ [.generation tier])
      | .error e =>
        (.ok (.deferred ("Generation error: " ++ e) (route_to_department c.intent)),
         evs ++ [.generation tier])

/-- Projects the classification dictionary to the two fields read at
processor.py lines 139-140, raising (as Python would on first use) when the
`intent` value is not a string or the `confidence` value is not a number. -/
def classification_view (j : JsonVal) : Except String ClassificationView :=
  match j.lookup "intent", j.lookup "confidence" with
  | some (.str i), some (.num q) => .ok ⟨i, q⟩
  | _, _ => .error "TypeError"

/-- Requires every element of a JSON array to be a string, giving the string
list. -/
def as_strings : List JsonVal → Option (List String)
  | [] => some []
  | .str s :: rest => (as_strings rest).map (fun l => s :: l)
  | _ => none

/-- Projects the entities dictionary to the `part_skus` list read at
processor.py line 154: absent means empty, a list of strings is taken as is,
and any other shape raises on first use. -/
def entities_view (j : JsonVal) : Except String EntitiesView :=
  match j with
  | .obj fs =>
    match assoc_last fs "part_skus" with
    | none => .ok ⟨[]⟩
    | some (.arr xs) =>
      match as_strings xs with
      | some skus => .ok ⟨skus⟩
      | none => .error "TypeError"
    | some _ => .error "TypeError"
  | _ => .error "AttributeError"

/-- Models the expression `str(logger._core.log_time)` of processor.py line
251.  The `Core` object of the loguru library defines no attribute `log_time`
(loguru/_logger.py constructs it with handlers, levels, extra, patcher and
lock fields only), so this attribute access raises `AttributeError` on every
evaluation. -/
def loguru_core_log_time : Except String String :=
  .error "AttributeError: Core object has no attribute log_time"

/-- Outcomes of the two FAST-tier router calls made by the classification and
extraction stages, plus the environment of the generation stage. -/
structure PipelineEnv where
  classify_call : Except String String
  extract_call : Except String String
  proc : ProcEnv

/-- The record built by `process_email` (processor.py lines 246-252). -/
structure ProcessedRecord where
  email_id : Option String
  classification : JsonVal
  entities : JsonVal
  response_data : Decision
  processed_at : String

/-- Embeds `EmailProcessor.process_email` (processor.py lines 229-252): the
classification and extraction stages (which never raise), the response
generation stage (whose exceptions propagate), and the record construction,
whose `processed_at` field evaluates `str(logger._core.log_time)`. -/
def process_email (env : PipelineEnv) (email : EmailData) :
    Except String ProcessedRecord × List CallEvent :=
  let classification := classify_intent env.classify_call
  let entities := extract_entities env.extract_call
  match classification_view classification with
  | .error e => (.error e, [])
  | .ok c =>
    match entities_view entities with
    | .error e => (.error e, [])
    | .ok ents =>
      match generate_response env.proc email c ents with
      | (.error e, evs) => (.error e, evs)
      | (.ok d, evs) =>
        match loguru_core_log_time with
        | .error e => (.error e, evs)
        | .ok t => (.ok ⟨email.id, classification, entities, d, t⟩, evs)

end EmailProcessor

/-- Sample processor environment: every collaborator succeeds, threshold at the
configured default. -/
def envAllOk : ProcEnv :=
  ⟨default_confidence_threshold, fun _ => .ok [], fun _ _ => .ok "ctx",
   fun _ => .ok ⟨"Dear customer, thank you for reaching out.", "mistral", "balanced"⟩⟩

/-- Sample processor environment: inventory lookups raise, everything else
succeeds. -/
def envInvDown : ProcEnv :=
  ⟨default_confidence_threshold, fun _ => .error "Neo4j connection refused",
   fun _ _ => .ok "ctx",
   fun _ => .ok ⟨"Dear customer, thank you for reaching out.", "mistral", "balanced"⟩⟩

/-- Sample processor environment: the generation call raises, everything else
succeeds. -/
def envGenDown : ProcEnv :=
  ⟨default_confidence_threshold, fun _ => .ok [], fun _ _ => .ok "ctx",
   fun _ => .error "All LLM attempts failed"⟩

/-- Sample inbound email. -/
def sampleEmail : EmailData :=
  ⟨some "e1", "Need brake pads", "Do you have BP-100 in stock?", "customer@test.com"⟩

/-- C1 counterexample: at confidence 0.4 below the default threshold the gate
does return a deferred decision routed by the table and makes no collaborator
call, but its reason string is "Low confidence classification", which is not
the string "low confidence classification" the claim specifies. -/
theorem C1_reason_case_counterexample :
    EmailProcessor.generate_response envAllOk sampleEmail ⟨"parts_order", ⟨4, 10⟩⟩ ⟨["BP-100"]⟩
      = (.ok (.deferred "Low confidence classification" "sales"), [])
  ∧ "Low confidence classification" ≠ "low confidence classification" :=
  ⟨by decide, by decide⟩

/-- C1 amended: for every environment (hence without any inventory, retrieval
or generation call: the call trace is empty and the result does not depend on
the collaborators), every email, every entity set and every classification
with confidence strictly below the configured threshold, `generate_response`
returns a deferred decision with reason "Low confidence classification" (so
capitalised in processor.py line 145) and the department routed for the
intent. -/
theorem C1_low_confidence_deferred (env : ProcEnv) (email : EmailData)
    (c : EmailProcessor.ClassificationView) (ents : EmailProcessor.EntitiesView)
    (h : PyFloat.lt c.confidence env.confidence_threshold) :
    EmailProcessor.generate_response env email c ents
      = (.ok (.deferred "Low confidence classification"
              (EmailProcessor.route_to_department c.intent)), []) := by
  simp [EmailProcessor.generate_response, h]

/-- Concrete instance of the amended C1. -/
theorem C1_low_confidence_deferred_witness :
    PyFloat.lt ⟨4, 10⟩ envAllOk.confidence_threshold
  ∧ EmailProcessor.generate_response envAllOk sampleEmail ⟨"parts_order", ⟨4, 10⟩⟩ ⟨["BP-100"]⟩
      = (.ok (.deferred "Low confidence classification" "sales"), []) :=
  ⟨by decide,
   by
    rw [C1_low_confidence_deferred envAllOk sampleEmail ⟨"parts_order", ⟨4, 10⟩⟩ ⟨["BP-100"]⟩
        (by decide)]
    decide⟩

/-- C3 counterexample: the provider response is the brace-delimited text
"\x7boops\x7d", on which JSON parsing fails; the classifier lands in its
exception handler and returns the 0.3 default, whose confidence value 3/10 is
not the 0.5 the claim specifies for every malformed response. -/
theorem C3_parse_failure_confidence_counterexample :
    EmailProcessor.classify_intent (.ok "\x7boops\x7d")
      = EmailProcessor.default_classification ⟨3, 10⟩
  ∧ (EmailProcessor.classify_intent (.ok "\x7boops\x7d")).lookup "confidence"
      = some (.num ⟨3, 10⟩)
  ∧ PyFloat.toRat ⟨3, 10⟩ ≠ PyFloat.toRat ⟨5, 10⟩ :=
  ⟨rfl, rfl, by norm_num [PyFloat.toRat]⟩

/-- C3 amended: the classifier is total over call outcomes; a failed router
call gives the 0.3 default; a response with no brace-delimited region gives
the 0.5 default; a brace region whose JSON parse fails gives the 0.3 default
(the parse exception lands in the handler of the call failure); a parsed value
missing the intent or confidence key likewise gives the 0.3 default. -/
theorem C3_classifier_defaults :
    (∀ e, EmailProcessor.classify_intent (.error e)
        = EmailProcessor.default_classification ⟨3, 10⟩)
  ∧ (∀ t, EmailProcessor.find_json_region (EmailProcessor.py_strip t) = none →
      EmailProcessor.classify_intent (.ok t)
        = EmailProcessor.default_classification ⟨5, 10⟩)
  ∧ (∀ t r, EmailProcessor.find_json_region (EmailProcessor.py_strip t) = some r →
      json_loads r = none →
      EmailProcessor.classify_intent (.ok t)
        = EmailProcessor.default_classification ⟨3, 10⟩)
  ∧ (∀ t r j, EmailProcessor.find_json_region (EmailProcessor.py_strip t) = some r →
      json_loads r = some j →
      ¬((j.lookup "intent").isSome = true ∧ (j.lookup "confidence").isSome = true) →
      EmailProcessor.classify_intent (.ok t)
        = EmailProcessor.default_classification ⟨3, 10⟩) := by
  refine ⟨fun e => rfl, fun t ht => ?_, fun t r ht hr => ?_, fun t r j ht hj hk => ?_⟩
  · simp [EmailProcessor.classify_intent, ht]
  · simp [EmailProcessor.classify_intent, ht, hr]
  · simp [EmailProcessor.classify_intent, ht, hj, hk]

/-- Concrete instances of all four branches of the amended C3. -/
theorem C3_classifier_defaults_witness :
    EmailProcessor.classify_intent (.error "boom")
      = EmailProcessor.default_classification ⟨3, 10⟩
  ∧ EmailProcessor.classify_intent (.ok "hello")
      = EmailProcessor.default_classification ⟨5, 10⟩
  ∧ EmailProcessor.classify_intent (.ok "\x7b bad json \x7d")
      = EmailProcessor.default_classification ⟨3, 10⟩
  ∧ EmailProcessor.classify_intent (.ok "\x7b\"a\": 1\x7d")
      = EmailProcessor.default_classification ⟨3, 10⟩ :=
  ⟨C3_classifier_defaults.1 "boom",
   C3_classifier_defaults.2.1 "hello" (by decide),
   C3_classifier_defaults.2.2.1 "\x7b bad json \x7d" "\x7b bad json \x7d" (by decide) rfl,
   C3_classifier_defaults.2.2.2 "\x7b\"a\": 1\x7d" "\x7b\"a\": 1\x7d"
     (.obj [("a", .num ⟨1, 1⟩)]) (by decide) rfl (by decide)⟩

/-- C4 counterexample: past the gate (confidence 0.9), with intent parts_order
and one extracted SKU, an exception raised by the inventory lookup during
enrichment propagates out of `generate_response` instead of being recovered
into a deferred decision. -/
theorem C4_enrichment_exception_counterexample :
    EmailProcessor.generate_response envInvDown sampleEmail ⟨"parts_order", ⟨9, 10⟩⟩ ⟨["BP-100"]⟩
      = (.error "Neo4j connection refused", [.inventory "BP-100"])
  ∧ ∀ reason dept, (Except.error "Neo4j connection refused" : Except String Decision)
      ≠ .ok (.deferred reason dept) :=
  ⟨by decide, fun _ _ hh => Except.noConfusion hh⟩

/-- Helper: when every inventory lookup succeeds, the inventory loop returns
normally. -/
theorem run_inventory_ok (env : ProcEnv) (skus : List String)
    (hinv : ∀ sku, ∃ v, env.check_inventory sku = .ok v) :
    ∃ inv evs, EmailProcessor.run_inventory env skus = (.ok inv, evs) := by
  induction skus with
  | nil => exact ⟨[], [], rfl⟩
  | cons sku rest ih =>
    obtain ⟨v, hv⟩ := hinv sku
    obtain ⟨inv, evs, hrest⟩ := ih
    exact ⟨v ++ inv, .inventory sku :: evs,
      by simp [EmailProcessor.run_inventory, hv, hrest]⟩

/-- Helper: when every inventory lookup and every retrieval call succeeds, the
enrichment stage returns normally. -/
theorem enrich_ok (env : ProcEnv) (body intent : String) (skus : List String)
    (hinv : ∀ sku, ∃ v, env.check_inventory sku = .ok v)
    (hrag : ∀ q t, ∃ s, env.build_rag_context q t = .ok s) :
    ∃ res evs, EmailProcessor.enrich env body intent skus = (.ok res, evs) := by
  unfold EmailProcessor.enrich
  by_cases h1 : intent = "parts_order" ∨ intent = "inventory_check"
  · rw [if_pos h1]
    by_cases h2 : skus.isEmpty
    · rw [if_pos h2]
      exact ⟨([], ""), [], rfl⟩
    · rw [if_neg h2]
      obtain ⟨inv, evs, hri⟩ := run_inventory_ok env (skus.take 5) hinv
      obtain ⟨ctx, hc⟩ := hrag ("parts " ++ String.intercalate " " skus) "parts"
      rw [hri]
      simp only [hc]
      exact ⟨(inv, ctx), _, rfl⟩
  · rw [if_neg h1]
    by_cases h3 : intent = "service_inquiry"
    · rw [if_pos h3]
      obtain ⟨ctx, hc⟩ := hrag (body.take 200) "faq"
      simp only [hc]
      exact ⟨([], ctx), _, rfl⟩
    · rw [if_neg h3]
      exact ⟨([], ""), [], rfl⟩

/-- C4 amended: past the gate, exceptions raised by the generation call itself
are recovered into a deferred decision whose reason is "Generation error: "
followed by the cause (so capitalised in processor.py line 224), with the
department routed for the intent; this covers exactly the generation call,
since the enrichment stage runs outside the `try` block (here expressed by
requiring the enrichment collaborators to succeed, the counterexample showing
the recovery indeed does not extend to them). -/
theorem C4_generation_error_deferred (env : ProcEnv) (email : EmailData)
    (c : EmailProcessor.ClassificationView) (ents : EmailProcessor.EntitiesView) (e : String)
    (hconf : ¬ PyFloat.lt c.confidence env.confidence_threshold)
    (hinv : ∀ sku, ∃ v, env.check_inventory sku = .ok v)
    (hrag : ∀ q t, ∃ s, env.build_rag_context q t = .ok s)
    (hgen : env.router_generate
        (if c.intent = "complaint" then ModelTier.quality else ModelTier.balanced) = .error e) :
    (EmailProcessor.generate_response env email c ents).1
      = .ok (.deferred ("Generation error: " ++ e)
             (EmailProcessor.route_to_department c.intent)) := by
  unfold EmailProcessor.generate_response
  rw [if_neg hconf]
  obtain ⟨⟨inv, ctx⟩, evs, he⟩ := enrich_ok env email.body c.intent ents.part_skus hinv hrag
  rw [he]
  simp only [hgen]

/-- Concrete instance of the amended C4: a failing generation call is turned
into a deferred decision carrying the cause. -/
theorem C4_generation_error_deferred_witness :
    (EmailProcessor.generate_response envGenDown sampleEmail
        ⟨"parts_order", ⟨9, 10⟩⟩ ⟨["BP-100"]⟩).1
      = .ok (.deferred "Generation error: All LLM attempts failed" "sales") := by
  rw [C4_generation_error_deferred envGenDown sampleEmail ⟨"parts_order", ⟨9, 10⟩⟩ ⟨["BP-100"]⟩
      "All LLM attempts failed" (by decide) (fun sku => ⟨[], rfl⟩) (fun q t => ⟨"ctx", rfl⟩) rfl]
  decide

/-- Pipeline environment for a fully successful run: the classifier call
returns a well-formed high-confidence JSON response, the extractor returns
prose without JSON (hence the empty entity default), and every generation
collaborator succeeds. -/
def envPipelineOk : EmailProcessor.PipelineEnv :=
  ⟨.ok "\x7b\"intent\": \"general_inquiry\", \"confidence\": 0.9, \"key_entities\": [], \"urgency\": \"low\"\x7d",
   .ok "no structured data found", envAllOk⟩

/-- C2: even on a run in which every collaborator call succeeds (the trace
shows the generation call was made and the decision was produced), the record
construction of processor.py line 251 evaluates
`str(logger._core.log_time)`, which raises `AttributeError` because the
loguru `Core` object has no `log_time` attribute, so `process_email` raises
instead of returning the record. -/
theorem C2_process_email_raises :
    EmailProcessor.process_email envPipelineOk sampleEmail
      = (.error "AttributeError: Core object has no attribute log_time",
         [.generation .balanced]) := by
  rfl

/-- C9 counterexample: a syntactically valid classifier response whose fields
violate the claimed invariant is returned unvalidated: the intent "banana" is
outside the seven-value enumeration and the confidence 5.0 is outside the
closed interval from 0 to 1. -/
theorem C9_unvalidated_counterexample :
    (EmailProcessor.classify_intent
        (.ok "\x7b\"intent\": \"banana\", \"confidence\": 5.0\x7d")).lookup "intent"
      = some (.str "banana")
  ∧ "banana" ∉ EmailProcessor.valid_intents
  ∧ (EmailProcessor.classify_intent
        (.ok "\x7b\"intent\": \"banana\", \"confidence\": 5.0\x7d")).lookup "confidence"
      = some (.num ⟨50, 10⟩)
  ∧ PyFloat.toRat ⟨50, 10⟩ = 5
  ∧ ¬ PyFloat.le ⟨50, 10⟩ ⟨1, 1⟩ :=
  ⟨rfl, by decide, rfl, by norm_num [PyFloat.toRat], by decide⟩

/-- The invariant claimed for every produced classification: an intent from
the seven-value enumeration and a confidence between 0 and 1. -/
def classification_invariant (j : JsonVal) : Prop :=
  (∃ i, j.lookup "intent" = some (.str i) ∧ i ∈ EmailProcessor.valid_intents)
  ∧ (∃ f, j.lookup "confidence" = some (.num f)
      ∧ 0 ≤ PyFloat.toRat f ∧ PyFloat.toRat f ≤ 1)

/-- C9 amended: the two documented defaults satisfy the claimed invariant, and
every classification the classifier produces is either one of those defaults
or the parsed model response returned unvalidated, guaranteed only to carry
intent and confidence keys, with no bound enforced on their values. -/
theorem C9_classification_shape :
    classification_invariant (EmailProcessor.default_classification ⟨5, 10⟩)
  ∧ classification_invariant (EmailProcessor.default_classification ⟨3, 10⟩)
  ∧ ∀ call, EmailProcessor.classify_intent call
        = EmailProcessor.default_classification ⟨5, 10⟩
      ∨ EmailProcessor.classify_intent call
        = EmailProcessor.default_classification ⟨3, 10⟩
      ∨ (((EmailProcessor.classify_intent call).lookup "intent").isSome = true
          ∧ ((EmailProcessor.classify_intent call).lookup "confidence").isSome = true) := by
  refine ⟨⟨⟨"general_inquiry", rfl, by decide⟩, ⟨⟨5, 10⟩, rfl, by norm_num [PyFloat.toRat]⟩⟩,
          ⟨⟨"general_inquiry", rfl, by decide⟩, ⟨⟨3, 10⟩, rfl, by norm_num [PyFloat.toRat]⟩⟩,
          fun call => ?_⟩
  cases call with
  | error e => exact Or.inr (Or.inl rfl)
  | ok t =>
    rcases h1 : EmailProcessor.find_json_region (EmailProcessor.py_strip t) with _ | region
    · exact Or.inl (by simp [EmailProcessor.classify_intent, h1])
    · rcases h2 : json_loads region with _ | j
      · exact Or.inr (Or.inl (by simp [EmailProcessor.classify_intent, h1, h2]))
      · by_cases h3 : (JsonVal.lookup j "intent").isSome = true
            ∧ (JsonVal.lookup j "confidence").isSome = true
        · refine Or.inr (Or.inr ?_)
          have hcl : EmailProcessor.classify_intent (.ok t) = j := by
            simp [EmailProcessor.classify_intent, h1, h2, h3]
          rw [hcl]
          exact ⟨h3.1, h3.2⟩
        · exact Or.inr (Or.inl (by simp [EmailProcessor.classify_intent, h1, h2, h3]))

/-- C10: the department routing lookup maps each of the seven declared intents
as the table of processor.py lines 119-127 declares, and resolves every other
intent string to the default "customer_service"; it is total and never
fails. -/
theorem C10_routing_total :
    (EmailProcessor.route_to_department "parts_order" = "sales"
   ∧ EmailProcessor.route_to_department "service_inquiry" = "service"
   ∧ EmailProcessor.route_to_department "invoice_request" = "accounting"
   ∧ EmailProcessor.route_to_department "inventory_check" = "sales"
   ∧ EmailProcessor.route_to_department "complaint" = "customer_service"
   ∧ EmailProcessor.route_to_department "transfer_request" = "warehouse"
   ∧ EmailProcessor.route_to_department "general_inquiry" = "customer_service")
  ∧ ∀ intent, intent ∉ EmailProcessor.valid_intents →
      EmailProcessor.route_to_department intent = "customer_service" := by
  constructor
  · exact ⟨by decide, by decide, by decide, by decide, by decide, by decide, by decide⟩
  · intro intent h
    simp only [EmailProcessor.valid_intents, List.mem_cons, List.mem_singleton] at h
    push_neg at h
    obtain ⟨h1, h2, h3, h4, h5, h6, h7⟩ := h
    simp [EmailProcessor.route_to_department, h1, h2, h3, h4, h5, h6, h7]

/-- Concrete instance of the default branch of C10: an undeclared intent
string resolves to customer_service. -/
theorem C10_routing_total_witness :
    "unknown_intent" ∉ EmailProcessor.valid_intents
  ∧ EmailProcessor.route_to_department "unknown_intent" = "customer_service" :=
  ⟨by decide, C10_routing_total.2 "unknown_intent" (by decide)⟩
